import Mathlib

/-!
Shallow embedding of the rate-limiting engine of this repository:
the fixed-window in-memory limiter (`src/app/limiter.py`), the
database-backed limiter (`src/app/db_limiter.py`), the scope-key builder,
the usage log, and an interleaving model of concurrent checks.

Modelling conventions:
* Python `time.time()` / `datetime.utcnow()` timestamps and durations are
  rationals (`ℚ`), so that sub-second precision is represented exactly.
  The several `time.time()` calls made inside one `check_rate_limit`
  invocation are modelled as a single instant `now` passed to the call.
* Python `int(x)` truncation toward zero is `pyInt`.
* Python truthiness of an optional string (`if user_id:`, `user_id or d`)
  is `pyTruthy`: `None` and the empty string are falsy.
* Python dicts keyed by strings are association lists; in-place mutation
  of an object held in the dict is modelled by writing the updated value
  back under its key.
* Request counts and configured maxima are naturals (the source only ever
  stores 0 or increments, and quota configs are positive integers).
-/

/-- Python `int(x)` for a rational: truncation toward zero. -/
def pyInt (q : ℚ) : ℤ := if 0 ≤ q then ⌊q⌋ else ⌈q⌉

/-- Python truthiness of an optional string: `None` and `""` are falsy. -/
def pyTruthy : Option String → Bool
  | none => false
  | some s => !s.isEmpty

/-- Python `user_id or 'anonymous'` from `get_rate_limit_key`: a falsy
`user_id` (absent or empty) is replaced by the sentinel `"anonymous"`. -/
def orAnonymous (user_id : Option String) : String :=
  match user_id with
  | none => "anonymous"
  | some s => if s.isEmpty then "anonymous" else s

/-- Python `str(x)` for an optional string as an f-string renders `None`
for the absent case. -/
def pyStr : Option String → String
  | none => "None"
  | some s => s

/-- Decides whether the first list is a prefix of the second (used to model
Python's substring test `in`). -/
def startsWithList : List Char → List Char → Bool
  | [], _ => true
  | _ :: _, [] => false
  | a :: as, b :: bs => a = b && startsWithList as bs

/-- Python `s.split(c)` for a one-character separator, structurally on the
character list: splitting on every occurrence, keeping empty parts. -/
def splitChar (c : Char) : List Char → List (List Char)
  | [] => [[]]
  | a :: as =>
      let r := splitChar c as
      if a = c then [] :: r
      else
        match r with
        | [] => [[a]]
        | g :: gs => (a :: g) :: gs

/-- Python `key.split(':')` as used by `get_rate_limit_stats`. -/
def pySplitColon (s : String) : List String :=
  (splitChar (Char.ofNat 58) s.data).map List.asString

/-- Decides whether `needle` occurs as a contiguous sublist of `hay`. -/
def hasSubList (needle : List Char) : List Char → Bool
  | [] => needle.isEmpty
  | c :: cs => startsWithList needle (c :: cs) || hasSubList needle cs

/-- Python `needle in hay` on strings: contiguous-substring test. -/
def pyInStr (needle hay : String) : Bool :=
  hasSubList needle.data hay.data

/-! ## RateLimitBucket (src/app/limiter.py) -/

/-- State of `RateLimitBucket`: fixed-window limiter, exactly
`max_requests` requests per window of `window_seconds` seconds. -/
structure RateLimitBucket where
  max_requests : ℕ
  window_seconds : ℚ
  requests_count : ℕ
  window_start : ℚ
deriving DecidableEq, Repr

/-- Constructor `RateLimitBucket(max_requests, window_seconds)`: count 0,
window starts at the current time. -/
def RateLimitBucket.init (max_requests : ℕ) (window_seconds : ℚ) (now : ℚ) :
    RateLimitBucket :=
  { max_requests := max_requests, window_seconds := window_seconds,
    requests_count := 0, window_start := now }

/-- Method `reset_if_new_window`: when `now - window_start >=
window_seconds`, reset the count to 0 and restart the window at `now`. -/
def RateLimitBucket.reset_if_new_window (b : RateLimitBucket) (now : ℚ) :
    RateLimitBucket :=
  if b.window_seconds ≤ now - b.window_start then
    { b with requests_count := 0, window_start := now }
  else b

/-- Method `consume(tokens)`: reset if a new window started, then admit
iff `requests_count + tokens <= max_requests`, incrementing on admit.
Returns the decision and the mutated bucket. -/
def RateLimitBucket.consume (b : RateLimitBucket) (tokens : ℕ) (now : ℚ) :
    Bool × RateLimitBucket :=
  let b := b.reset_if_new_window now
  if b.requests_count + tokens ≤ b.max_requests then
    (true, { b with requests_count := b.requests_count + tokens })
  else
    (false, b)

/-- Method `get_remaining`: reset if a new window started, then return
`max(0, max_requests - requests_count)` (natural subtraction) together
with the mutated bucket. -/
def RateLimitBucket.get_remaining (b : RateLimitBucket) (now : ℚ) :
    ℕ × RateLimitBucket :=
  let b := b.reset_if_new_window now
  (b.max_requests - b.requests_count, b)

/-- Method `get_retry_after`: 0 while under the ceiling; otherwise
`max(1, int(window_seconds - (now - window_start)))`, with Python `int`
truncation. -/
def RateLimitBucket.get_retry_after (b : RateLimitBucket) (now : ℚ) : ℤ :=
  if b.requests_count < b.max_requests then 0
  else max 1 (pyInt (b.window_seconds - (now - b.window_start)))

/-! ## Scope keys (get_rate_limit_key) -/

/-- Function `get_rate_limit_key(api_key, user_id, endpoint, limit_type)`:
f-string key construction per limit class; an absent or empty `user_id`
becomes the sentinel `anonymous` in the user class. -/
def get_rate_limit_key (api_key : String) (user_id : Option String)
    (endpoint : String) (limit_type : String) : String :=
  if limit_type = "global" then
    "global:" ++ endpoint
  else if limit_type = "ip" then
    "ip:" ++ pyStr user_id ++ ":" ++ endpoint
  else
    "user:" ++ api_key ++ ":" ++ orAnonymous user_id ++ ":" ++ endpoint

/-! ## The module-level store and usage log (src/app/limiter.py) -/

/-- Model of the module dict `rate_limits_store`: an association list from
rate-limit keys to buckets. -/
abbrev Store := List (String × RateLimitBucket)

/-- Dictionary lookup `rate_limits_store[key]` / `key in rate_limits_store`. -/
def storeGet (s : Store) (k : String) : Option RateLimitBucket :=
  match s with
  | [] => none
  | (k1, v) :: rest => if k1 = k then some v else storeGet rest k

/-- Dictionary write `rate_limits_store[key] = bucket`: replaces the value
under an existing key in place, else appends a new binding. -/
def storeSet (s : Store) (k : String) (v : RateLimitBucket) : Store :=
  match s with
  | [] => [(k, v)]
  | (k1, v1) :: rest =>
      if k1 = k then (k1, v) :: rest else (k1, v1) :: storeSet rest k v

/-- Record `RateLimitResult` (pydantic model in limiter.py). -/
structure RateLimitResult where
  allowed : Bool
  remaining_quota : ℕ
  retry_after : ℤ
  message : String
  endpoint : String
  user_id : Option String
deriving DecidableEq, Repr

/-- Record `RateLimitConfig`: the resolved quota passed in through
`api_key_config` (`max_requests`, `window_seconds`). -/
structure RateLimitConfig where
  max_requests : ℕ
  window_seconds : ℚ
deriving DecidableEq, Repr

/-- Entry appended to the module list `usage_logs` by `check_rate_limit`. -/
structure LogEntry where
  timestamp : ℚ
  api_key : String
  user_id : Option String
  endpoint : String
  client_ip : Option String
  allowed : Bool
  remaining : ℕ
  retry_after : ℤ
  window_start : ℚ
  requests_in_window : ℕ
deriving DecidableEq, Repr

/-- Combined mutable module state of limiter.py: the bucket store and the
usage log. -/
structure LimiterState where
  rate_limits_store : Store
  usage_logs : List LogEntry
deriving Repr

/-- Function `check_rate_limit(api_key, api_key_config, user_id, endpoint,
client_ip)`: build the key, get or create the bucket, consume one token,
read remaining and retry-after, append one usage-log entry (evicting the
oldest past 1000), and return the result. All `time.time()` /
`datetime.now()` readings inside the call are the instant `now`. -/
def check_rate_limit (api_key : String) (cfg : RateLimitConfig)
    (user_id : Option String) (endpoint : String) (client_ip : Option String)
    (now : ℚ) (st : LimiterState) : RateLimitResult × LimiterState :=
  let rate_limit_key := get_rate_limit_key api_key user_id endpoint "user"
  let bucket0 :=
    match storeGet st.rate_limits_store rate_limit_key with
    | some b => b
    | none => RateLimitBucket.init cfg.max_requests cfg.window_seconds now
  let c := bucket0.consume 1 now
  let allowed := c.1
  let r := c.2.get_remaining now
  let remaining := r.1
  let bucket := r.2
  let retry_after : ℤ := if allowed then 0 else bucket.get_retry_after now
  let log_entry : LogEntry :=
    { timestamp := now, api_key := api_key, user_id := user_id,
      endpoint := endpoint, client_ip := client_ip, allowed := allowed,
      remaining := remaining, retry_after := retry_after,
      window_start := bucket.window_start,
      requests_in_window := bucket.requests_count }
  let logs1 := st.usage_logs ++ [log_entry]
  let logs2 := if 1000 < logs1.length then logs1.tail else logs1
  let message :=
    if allowed then "Request allowed"
    else "Rate limit exceeded. Max " ++ toString cfg.max_requests ++
      " requests per " ++ toString cfg.window_seconds ++ " seconds."
  ({ allowed := allowed, remaining_quota := remaining,
     retry_after := retry_after, message := message, endpoint := endpoint,
     user_id := user_id },
   { rate_limits_store := storeSet st.rate_limits_store rate_limit_key bucket,
     usage_logs := logs2 })

/-- Sequence of `check_rate_limit` calls at the given instants, collecting
the results. -/
def checkSeq (api_key : String) (cfg : RateLimitConfig)
    (user_id : Option String) (endpoint : String) (client_ip : Option String) :
    List ℚ → LimiterState → List RateLimitResult × LimiterState
  | [], st => ([], st)
  | t :: ts, st =>
    let p := check_rate_limit api_key cfg user_id endpoint client_ip t st
    let q := checkSeq api_key cfg user_id endpoint client_ip ts p.2
    (p.1 :: q.1, q.2)

/-- Effect of `get_rate_limit_stats(api_key)` on `rate_limits_store`: for
every bucket whose key contains `api_key` as a substring and splits into at
least 3 colon-separated parts, the source calls `reset_if_new_window` and
`get_remaining` (which resets again) while gathering statistics. The
returned statistics dictionary is pure data derived afterwards; this
definition captures the store mutation the call performs. -/
def get_rate_limit_stats_store (api_key : String) (now : ℚ) (s : Store) :
    Store :=
  s.map fun kv =>
    if pyInStr api_key kv.1 ∧ 3 ≤ (pySplitColon kv.1).length then
      (kv.1, ((kv.2.reset_if_new_window now).get_remaining now).2)
    else kv

/-! ## DatabaseRateLimiter (src/app/db_limiter.py) -/

/-- Row of the `DBRateLimitState` table: one counter per
(api_key, user_id, endpoint). -/
structure DBRateLimitState where
  api_key : String
  user_id : Option String
  endpoint : String
  current_requests : ℕ
  window_start : ℚ
  last_request : ℚ
deriving DecidableEq, Repr

/-- Row of the `DBRateLimitLog` table, written by `_log_usage`. -/
structure DBRateLimitLog where
  api_key : String
  user_id : Option String
  endpoint : String
  method : String
  timestamp : ℚ
deriving DecidableEq, Repr

/-- Database state visible to the limiter: the counter table and the
usage-log table (rows in insertion order). -/
structure DBState where
  states : List DBRateLimitState
  logs : List DBRateLimitLog
deriving DecidableEq, Repr

/-- Row filter of `DatabaseRateLimiter.check_rate_limit`: same `api_key`,
same `endpoint`, and `user_id` equal when the argument is truthy, else
`user_id IS NULL`. -/
def dbRowMatch (api_key : String) (user_id : Option String)
    (endpoint : String) (r : DBRateLimitState) : Bool :=
  r.api_key = api_key ∧
  (if pyTruthy user_id then r.user_id = user_id else r.user_id = none) ∧
  r.endpoint = endpoint

/-- Query `...filter(...).first()`: the first matching counter row. -/
def dbFirst (rows : List DBRateLimitState) (api_key : String)
    (user_id : Option String) (endpoint : String) : Option DBRateLimitState :=
  (rows.filter (dbRowMatch api_key user_id endpoint)).head?

/-- In-place ORM update of the matched row: replace the first matching row
by the new value, leaving all other rows unchanged. -/
def dbReplaceFirst (rows : List DBRateLimitState) (api_key : String)
    (user_id : Option String) (endpoint : String) (v : DBRateLimitState) :
    List DBRateLimitState :=
  match rows with
  | [] => []
  | r :: rest =>
      if dbRowMatch api_key user_id endpoint r then v :: rest
      else r :: dbReplaceFirst rest api_key user_id endpoint v

/-- Result dictionary of `DatabaseRateLimiter.check_rate_limit`. The
`retry_after` key is only present in the deny branch, hence optional. -/
structure DBCheckResult where
  allowed : Bool
  remaining : ℤ
  limit : ℕ
  reset_time : ℚ
  retry_after : Option ℤ
deriving DecidableEq, Repr

/-- Method `DatabaseRateLimiter.check_rate_limit(api_key, user_id,
endpoint, method)`. The quota `(max_requests, window_seconds)` comes from
`verify_api_key` (external credential collaborator) and is passed in
resolved. `datetime.utcnow()` is the instant `now`. Branches: create a new
row (count 1), reset an expired window (count 1), increment under the
ceiling, or deny; `_log_usage` appends one log row in the first three
branches and is not called in the deny branch. -/
def DatabaseRateLimiter.check_rate_limit (max_requests : ℕ)
    (window_seconds : ℚ) (api_key : String) (user_id : Option String)
    (endpoint : String) (method : String) (now : ℚ) (db : DBState) :
    DBCheckResult × DBState :=
  let log : DBRateLimitLog :=
    { api_key := api_key, user_id := user_id, endpoint := endpoint,
      method := method, timestamp := now }
  match dbFirst db.states api_key user_id endpoint with
  | none =>
      let row : DBRateLimitState :=
        { api_key := api_key, user_id := user_id, endpoint := endpoint,
          current_requests := 1, window_start := now, last_request := now }
      ({ allowed := true, remaining := (max_requests : ℤ) - 1,
         limit := max_requests, reset_time := now + window_seconds,
         retry_after := none },
       { states := db.states ++ [row], logs := db.logs ++ [log] })
  | some rate_state =>
      if window_seconds ≤ now - rate_state.window_start then
        let row := { rate_state with
          current_requests := 1
          window_start := now
          last_request := now }
        ({ allowed := true, remaining := (max_requests : ℤ) - 1,
           limit := max_requests, reset_time := now + window_seconds,
           retry_after := none },
         { states := dbReplaceFirst db.states api_key user_id endpoint row,
           logs := db.logs ++ [log] })
      else if rate_state.current_requests < max_requests then
        let row := { rate_state with
          current_requests := rate_state.current_requests + 1
          last_request := now }
        ({ allowed := true,
           remaining := (max_requests : ℤ) - (row.current_requests : ℤ),
           limit := max_requests,
           reset_time := rate_state.window_start + window_seconds,
           retry_after := none },
         { states := dbReplaceFirst db.states api_key user_id endpoint row,
           logs := db.logs ++ [log] })
      else
        let reset_time := rate_state.window_start + window_seconds
        ({ allowed := false, remaining := 0, limit := max_requests,
           reset_time := reset_time,
           retry_after := some (max 0 (pyInt (reset_time - now))) },
         db)

/-! ## Interleaving model of concurrent checks (src/app/limiter.py)

Python's `consume` on a shared bucket performs a guard read
(`requests_count + tokens <= max_requests`) and then, when the guard
passed, an increment (`requests_count += tokens`). Under concurrent
request handlers these two steps of different callers can interleave
arbitrarily; each step itself is atomic. The model below runs several
threads, each executing one within-window `consume(1)` against a shared
count, under an explicit schedule. -/

/-- Progress of one thread through its `consume(1)` call: not yet run the
guard; guard run with the recorded decision, increment pending; finished
with the recorded decision. -/
inductive ConsumePhase where
  | ready : ConsumePhase
  | decided (allowed : Bool) : ConsumePhase
  | finished (allowed : Bool) : ConsumePhase
deriving DecidableEq, Repr

/-- Shared bucket count plus each thread's phase. -/
structure ConcState where
  count : ℕ
  threads : List ConsumePhase
deriving DecidableEq, Repr

/-- Run one atomic step of thread `i`: the guard read
`count + 1 <= max_requests` when ready, the increment (when admitted) when
decided. Out-of-range indices and finished threads do nothing. -/
def stepThread (max_requests : ℕ) (s : ConcState) (i : ℕ) : ConcState :=
  match s.threads.get? i with
  | some ConsumePhase.ready =>
      let allowed := s.count + 1 ≤ max_requests
      { s with threads := s.threads.set i (ConsumePhase.decided allowed) }
  | some (ConsumePhase.decided allowed) =>
      { count := if allowed then s.count + 1 else s.count,
        threads := s.threads.set i (ConsumePhase.finished allowed) }
  | _ => s

/-- Run a schedule: a list of thread indices, each naming the thread that
executes its next atomic step. -/
def runSchedule (max_requests : ℕ) (s : ConcState) (sched : List ℕ) :
    ConcState :=
  sched.foldl (stepThread max_requests) s

/-- Number of threads that finished with an allow decision. -/
def countAllowed (s : ConcState) : ℕ :=
  s.threads.countP fun p =>
    match p with
    | ConsumePhase.finished true => true
    | _ => false

/-! ## Spec-side model of the Scope Key Builder error contract -/

/-- Error taxonomy entry `InvalidScope` of the specification. -/
inductive ScopeError where
  | invalidScope : ScopeError
deriving DecidableEq, Repr

/-- Modelled from the spec: the repository has no Scope Key Builder that
can fail — `get_rate_limit_key` is a total function — so the spec's
contract "Malformed input (empty credential_id) fails with `InvalidScope`"
is rendered here from the spec's words, for comparison against the source
function: it errors on an empty credential and otherwise produces the
user-class key. -/
def buildScopeKeySpec (credential_id : String) (sub_identity : Option String)
    (endpoint : String) : Except ScopeError String :=
  if credential_id.isEmpty then Except.error ScopeError.invalidScope
  else Except.ok (get_rate_limit_key credential_id sub_identity endpoint "user")

/-! ## Helper lemmas -/

theorem storeGet_storeSet_self (s : Store) (k : String) (v : RateLimitBucket) :
    storeGet (storeSet s k v) k = some v := by
  induction s with
  | nil => simp [storeSet, storeGet]
  | cons kv rest ih =>
      obtain ⟨k1, v1⟩ := kv
      by_cases h : k1 = k
      · simp [storeSet, storeGet, h]
      · simp [storeSet, storeGet, h, ih]

/-- Resetting twice at the same instant is the same as resetting once. -/
theorem reset_if_new_window_of_no_reset (b : RateLimitBucket) (now : ℚ)
    (hwin : ¬ b.window_seconds ≤ now - b.window_start) :
    b.reset_if_new_window now = b := by
  unfold RateLimitBucket.reset_if_new_window
  exact if_neg hwin

/-- One in-window admitted call of `check_rate_limit` over an existing
bucket: allowed, remaining drops to `max - (count + 1)`, and the stored
bucket's count is incremented while its window is untouched. -/
theorem check_step_allow (api_key : String) (cfg : RateLimitConfig)
    (uid : Option String) (ep : String) (ip : Option String) (now : ℚ)
    (st : LimiterState) (b : RateLimitBucket)
    (hb : storeGet st.rate_limits_store
        (get_rate_limit_key api_key uid ep "user") = some b)
    (hwin : ¬ b.window_seconds ≤ now - b.window_start)
    (hcap : b.requests_count + 1 ≤ b.max_requests) :
    (check_rate_limit api_key cfg uid ep ip now st).1.allowed = true ∧
    (check_rate_limit api_key cfg uid ep ip now st).1.remaining_quota
      = b.max_requests - (b.requests_count + 1) ∧
    (check_rate_limit api_key cfg uid ep ip now st).2.rate_limits_store
      = storeSet st.rate_limits_store (get_rate_limit_key api_key uid ep "user")
          { b with requests_count := b.requests_count + 1 } := by
  have h1 : b.reset_if_new_window now = b :=
    reset_if_new_window_of_no_reset b now hwin
  have h2 : ({ b with requests_count := b.requests_count + 1 } :
      RateLimitBucket).reset_if_new_window now
      = { b with requests_count := b.requests_count + 1 } := if_neg hwin
  simp [check_rate_limit, hb, RateLimitBucket.consume, h1, h2, if_pos hcap,
    RateLimitBucket.get_remaining]

/-- Projection of the admission decision: `check_rate_limit` answers
exactly what `consume(1)` answered on the bucket it found or created. -/
theorem check_rate_limit_allowed (api_key : String) (cfg : RateLimitConfig)
    (uid : Option String) (ep : String) (ip : Option String) (now : ℚ)
    (st : LimiterState) :
    (check_rate_limit api_key cfg uid ep ip now st).1.allowed
      = ((match storeGet st.rate_limits_store
            (get_rate_limit_key api_key uid ep "user") with
          | some b => b
          | none => RateLimitBucket.init cfg.max_requests cfg.window_seconds
              now).consume 1 now).1 := rfl

/-- C3: a check issued at `now` with `now - window_start ≥ window_seconds`
starts a fresh window: it is allowed, the stored count is reset to 1 with
`window_start = now`, remaining is `max_requests - 1`, and retry_after
is 0. (Quota invariants: `max_requests ≥ 1`, `window_seconds > 0`.) -/
theorem C3_window_rollover (api_key : String) (cfg : RateLimitConfig)
    (uid : Option String) (ep : String) (ip : Option String) (now : ℚ)
    (st : LimiterState) (b : RateLimitBucket)
    (hb : storeGet st.rate_limits_store
        (get_rate_limit_key api_key uid ep "user") = some b)
    (hmax : 1 ≤ b.max_requests)
    (hwpos : 0 < b.window_seconds)
    (hroll : b.window_seconds ≤ now - b.window_start) :
    (check_rate_limit api_key cfg uid ep ip now st).1.allowed = true ∧
    (check_rate_limit api_key cfg uid ep ip now st).1.remaining_quota
      = b.max_requests - 1 ∧
    (check_rate_limit api_key cfg uid ep ip now st).1.retry_after = 0 ∧
    storeGet (check_rate_limit api_key cfg uid ep ip now st).2.rate_limits_store
        (get_rate_limit_key api_key uid ep "user")
      = some ⟨b.max_requests, b.window_seconds, 1, now⟩ := by
  have h1 : b.reset_if_new_window now
      = { b with requests_count := 0, window_start := now } := if_pos hroll
  have hcap : (0 : ℕ) + 1 ≤ b.max_requests := by omega
  have hnr : ¬ b.window_seconds ≤ now - now := by
    rw [sub_self]; exact not_le.mpr hwpos
  have h2 : ({ b with requests_count := 1, window_start := now } :
      RateLimitBucket).reset_if_new_window now
      = { b with requests_count := 1, window_start := now } := if_neg hnr
  simp [check_rate_limit, hb, RateLimitBucket.consume, h1, h2, if_pos hcap,
    RateLimitBucket.get_remaining, storeGet_storeSet_self]

/-- C3 witness: a bucket at count 3 of 5 whose 60-second window opened at
time 0, checked at time 60, is reset to count 1 with the window restarted. -/
theorem C3_window_rollover_witness :
    storeGet ([("user:k:anonymous:/api", ⟨5, 60, 3, 0⟩)] : Store)
        (get_rate_limit_key "k" none "/api" "user")
      = some ⟨5, 60, 3, 0⟩ ∧
    (check_rate_limit "k" ⟨5, 60⟩ none "/api" none 60
        ⟨[("user:k:anonymous:/api", ⟨5, 60, 3, 0⟩)], []⟩).1.allowed = true ∧
    (check_rate_limit "k" ⟨5, 60⟩ none "/api" none 60
        ⟨[("user:k:anonymous:/api", ⟨5, 60, 3, 0⟩)], []⟩).1.remaining_quota
      = 5 - 1 ∧
    (check_rate_limit "k" ⟨5, 60⟩ none "/api" none 60
        ⟨[("user:k:anonymous:/api", ⟨5, 60, 3, 0⟩)], []⟩).1.retry_after = 0 ∧
    storeGet (check_rate_limit "k" ⟨5, 60⟩ none "/api" none 60
        ⟨[("user:k:anonymous:/api", ⟨5, 60, 3, 0⟩)], []⟩).2.rate_limits_store
        (get_rate_limit_key "k" none "/api" "user")
      = some ⟨5, 60, 1, 60⟩ :=
  ⟨by decide, by
    have h := C3_window_rollover "k" ⟨5, 60⟩ none "/api" none 60
      ⟨[("user:k:anonymous:/api", ⟨5, 60, 3, 0⟩)], []⟩ ⟨5, 60, 3, 0⟩
      (by decide) (by decide) (by decide) (by simp)
    exact ⟨h.1, h.2.1, h.2.2.1, h.2.2.2⟩⟩

/-- C8: when a check is denied, the stored counter state for that key is
unchanged: the bucket after the call equals the bucket before it, count
and window_start included. (Quota invariant `max_requests ≥ 1`; a denial
then implies the call was within the current window.) -/
theorem C8_denied_state_unchanged (api_key : String) (cfg : RateLimitConfig)
    (uid : Option String) (ep : String) (ip : Option String) (now : ℚ)
    (st : LimiterState) (b : RateLimitBucket)
    (hb : storeGet st.rate_limits_store
        (get_rate_limit_key api_key uid ep "user") = some b)
    (hmax : 1 ≤ b.max_requests)
    (hdeny : (check_rate_limit api_key cfg uid ep ip now st).1.allowed = false) :
    storeGet (check_rate_limit api_key cfg uid ep ip now st).2.rate_limits_store
        (get_rate_limit_key api_key uid ep "user") = some b := by
  have ha := check_rate_limit_allowed api_key cfg uid ep ip now st
  rw [hb] at ha
  by_cases hroll : b.window_seconds ≤ now - b.window_start
  · exfalso
    have hguard : (0 : ℕ) + 1 ≤ b.max_requests := by omega
    have htrue : (b.consume 1 now).1 = true := by
      simp [RateLimitBucket.consume, RateLimitBucket.reset_if_new_window,
        if_pos hroll, hguard]
    rw [ha, htrue] at hdeny
    simp at hdeny
  · by_cases hcap : b.requests_count + 1 ≤ b.max_requests
    · exfalso
      have h1 : b.reset_if_new_window now = b :=
        reset_if_new_window_of_no_reset b now hroll
      have htrue : (b.consume 1 now).1 = true := by
        simp [RateLimitBucket.consume, h1, if_pos hcap]
      rw [ha, htrue] at hdeny
      simp at hdeny
    · have h1 : b.reset_if_new_window now = b :=
        reset_if_new_window_of_no_reset b now hroll
      simp [check_rate_limit, hb, RateLimitBucket.consume, h1, if_neg hcap,
        RateLimitBucket.get_remaining, storeGet_storeSet_self]

/-- C8 witness: a full bucket (2 of 2) checked again inside its window is
denied and its stored count and window start are untouched. -/
theorem C8_denied_state_unchanged_witness :
    storeGet ([("user:k:anonymous:/api", ⟨2, 60, 2, 0⟩)] : Store)
        (get_rate_limit_key "k" none "/api" "user") = some ⟨2, 60, 2, 0⟩ ∧
    (check_rate_limit "k" ⟨2, 60⟩ none "/api" none 0
        ⟨[("user:k:anonymous:/api", ⟨2, 60, 2, 0⟩)], []⟩).1.allowed = false ∧
    storeGet (check_rate_limit "k" ⟨2, 60⟩ none "/api" none 0
        ⟨[("user:k:anonymous:/api", ⟨2, 60, 2, 0⟩)], []⟩).2.rate_limits_store
        (get_rate_limit_key "k" none "/api" "user") = some ⟨2, 60, 2, 0⟩ :=
  ⟨by decide, by
    simp +decide [check_rate_limit, RateLimitBucket.consume,
      RateLimitBucket.reset_if_new_window, RateLimitBucket.get_remaining,
      get_rate_limit_key, orAnonymous, storeGet],
   C8_denied_state_unchanged "k" ⟨2, 60⟩ none "/api" none 0
      ⟨[("user:k:anonymous:/api", ⟨2, 60, 2, 0⟩)], []⟩ ⟨2, 60, 2, 0⟩
      (by decide) (by decide)
      (by simp +decide [check_rate_limit, RateLimitBucket.consume,
        RateLimitBucket.reset_if_new_window, RateLimitBucket.get_remaining,
        get_rate_limit_key, orAnonymous, storeGet])⟩

/-- Induction core for sequences of checks: starting from a stored bucket
whose window covers all the instants and whose count leaves room for the
whole sequence, every call is allowed and remaining walks down one step
per call. -/
theorem checkSeq_in_window (api_key : String) (cfg : RateLimitConfig)
    (uid : Option String) (ep : String) (ip : Option String) :
    ∀ (ts : List ℚ) (st : LimiterState) (b : RateLimitBucket),
      storeGet st.rate_limits_store
          (get_rate_limit_key api_key uid ep "user") = some b →
      (∀ t ∈ ts, ¬ b.window_seconds ≤ t - b.window_start) →
      b.requests_count + ts.length ≤ b.max_requests →
      ((checkSeq api_key cfg uid ep ip ts st).1.map RateLimitResult.allowed
          = List.replicate ts.length true) ∧
      ((checkSeq api_key cfg uid ep ip ts st).1.map RateLimitResult.remaining_quota
          = (List.range ts.length).map
              fun i => b.max_requests - (b.requests_count + i + 1)) := by
  intro ts
  induction ts with
  | nil => intro st b _ _ _; simp [checkSeq]
  | cons t ts ih =>
      intro st b hb hwin hcap
      have hw1 : ¬ b.window_seconds ≤ t - b.window_start :=
        hwin t (List.mem_cons_self t ts)
      have hc1 : b.requests_count + 1 ≤ b.max_requests := by
        simp at hcap; omega
      obtain ⟨ha, hr, hs⟩ :=
        check_step_allow api_key cfg uid ep ip t st b hb hw1 hc1
      have hb1 : storeGet
          (check_rate_limit api_key cfg uid ep ip t st).2.rate_limits_store
          (get_rate_limit_key api_key uid ep "user")
          = some { b with requests_count := b.requests_count + 1 } := by
        rw [hs]; exact storeGet_storeSet_self ..
      have hwin1 : ∀ t1 ∈ ts,
          ¬ ({ b with requests_count := b.requests_count + 1 } :
              RateLimitBucket).window_seconds
            ≤ t1 - ({ b with requests_count := b.requests_count + 1 } :
              RateLimitBucket).window_start :=
        fun t1 ht1 => hwin t1 (List.mem_cons_of_mem t ht1)
      have hcap1 : ({ b with requests_count := b.requests_count + 1 } :
          RateLimitBucket).requests_count + ts.length
          ≤ ({ b with requests_count := b.requests_count + 1 } :
          RateLimitBucket).max_requests := by
        simp at hcap ⊢; omega
      obtain ⟨iha, ihr⟩ := ih (check_rate_limit api_key cfg uid ep ip t st).2
        { b with requests_count := b.requests_count + 1 } hb1 hwin1 hcap1
      constructor
      · simp [checkSeq, ha, iha, List.replicate_succ]
      · simp only [checkSeq, List.map_cons, ihr, hr, List.length_cons,
          List.range_succ_eq_map, List.map_map]
        congr 1
        exact List.map_congr_left fun i _ => by
          simp only [Function.comp_apply]; omega

/-- C1: starting from a fresh ScopeKey, a sequence of `N ≤ max_requests`
checks whose instants all fall inside the window opened by the first call
is allowed throughout, and the returned remaining quota is
`max_requests - 1, max_requests - 2, …, max_requests - N`: it strictly
decreases by 1 on each call and ends at `max_requests - N`. -/
theorem C1_fresh_window_sequence (api_key : String) (cfg : RateLimitConfig)
    (uid : Option String) (ep : String) (ip : Option String)
    (t0 : ℚ) (rest : List ℚ) (st : LimiterState)
    (hfresh : storeGet st.rate_limits_store
        (get_rate_limit_key api_key uid ep "user") = none)
    (hN : (t0 :: rest).length ≤ cfg.max_requests)
    (hwpos : 0 < cfg.window_seconds)
    (hwin : ∀ t ∈ rest, t - t0 < cfg.window_seconds) :
    ((checkSeq api_key cfg uid ep ip (t0 :: rest) st).1.map
        RateLimitResult.allowed
      = List.replicate (t0 :: rest).length true) ∧
    ((checkSeq api_key cfg uid ep ip (t0 :: rest) st).1.map
        RateLimitResult.remaining_quota
      = (List.range (t0 :: rest).length).map
          fun i => cfg.max_requests - (i + 1)) := by
  have hnr : ¬ cfg.window_seconds ≤ t0 - t0 := by
    rw [sub_self]; exact not_le.mpr hwpos
  have hmax : 1 ≤ cfg.max_requests := by simp at hN; omega
  have hguard : (0 : ℕ) + 1 ≤ cfg.max_requests := by omega
  have hn0 : ¬ cfg.window_seconds ≤ 0 := not_le.mpr hwpos
  have ha1 : (check_rate_limit api_key cfg uid ep ip t0 st).1.allowed = true := by
    simp [check_rate_limit, hfresh, RateLimitBucket.init,
      RateLimitBucket.consume, RateLimitBucket.reset_if_new_window,
      hnr, hn0, hguard]
  have hr1 : (check_rate_limit api_key cfg uid ep ip t0 st).1.remaining_quota
      = cfg.max_requests - 1 := by
    simp [check_rate_limit, hfresh, RateLimitBucket.init,
      RateLimitBucket.consume, RateLimitBucket.reset_if_new_window,
      hnr, hn0, hguard, RateLimitBucket.get_remaining]
  have hs1 : (check_rate_limit api_key cfg uid ep ip t0 st).2.rate_limits_store
      = storeSet st.rate_limits_store (get_rate_limit_key api_key uid ep "user")
          ⟨cfg.max_requests, cfg.window_seconds, 1, t0⟩ := by
    simp [check_rate_limit, hfresh, RateLimitBucket.init,
      RateLimitBucket.consume, RateLimitBucket.reset_if_new_window,
      hnr, hn0, hguard, RateLimitBucket.get_remaining]
  have hb1 : storeGet
      (check_rate_limit api_key cfg uid ep ip t0 st).2.rate_limits_store
      (get_rate_limit_key api_key uid ep "user")
      = some ⟨cfg.max_requests, cfg.window_seconds, 1, t0⟩ := by
    rw [hs1]; exact storeGet_storeSet_self ..
  have hwin1 : ∀ t ∈ rest,
      ¬ (⟨cfg.max_requests, cfg.window_seconds, 1, t0⟩ :
          RateLimitBucket).window_seconds
        ≤ t - (⟨cfg.max_requests, cfg.window_seconds, 1, t0⟩ :
          RateLimitBucket).window_start :=
    fun t ht => not_le.mpr (hwin t ht)
  have hcap1 : (⟨cfg.max_requests, cfg.window_seconds, 1, t0⟩ :
      RateLimitBucket).requests_count + rest.length
      ≤ (⟨cfg.max_requests, cfg.window_seconds, 1, t0⟩ :
      RateLimitBucket).max_requests := by
    simp at hN ⊢; omega
  obtain ⟨iha, ihr⟩ := checkSeq_in_window api_key cfg uid ep ip rest
    (check_rate_limit api_key cfg uid ep ip t0 st).2
    ⟨cfg.max_requests, cfg.window_seconds, 1, t0⟩ hb1 hwin1 hcap1
  constructor
  · simp [checkSeq, ha1, iha, List.replicate_succ]
  · simp only [checkSeq, List.map_cons, ihr, hr1, List.length_cons,
      List.range_succ_eq_map, List.map_map]
    congr 1
    exact List.map_congr_left fun i _ => by
      simp only [Function.comp_apply]; omega

/-- C1 witness: three checks at time 0 against a fresh key with quota
3 per 60 seconds are all allowed with remaining 2, 1, 0. -/
theorem C1_fresh_window_sequence_witness :
    storeGet ([] : Store) (get_rate_limit_key "k" none "/api" "user") = none ∧
    (([(0 : ℚ), 0, 0]).length ≤ 3) ∧
    ((checkSeq "k" ⟨3, 60⟩ none "/api" none [0, 0, 0] ⟨[], []⟩).1.map
        RateLimitResult.allowed = List.replicate 3 true) ∧
    ((checkSeq "k" ⟨3, 60⟩ none "/api" none [0, 0, 0] ⟨[], []⟩).1.map
        RateLimitResult.remaining_quota
      = (List.range 3).map fun i => 3 - (i + 1)) := by
  have h := C1_fresh_window_sequence "k" ⟨3, 60⟩ none "/api" none 0 [0, 0]
    ⟨[], []⟩ (by decide) (by decide) (by decide) (by simp)
  exact ⟨by decide, by decide, h.1, h.2⟩

/-! ## Claims C2, C4, C5: retry-after rounding, racing checks, deny logging -/

/-- C2: at the ceiling, 59.5 seconds before the window ends, the source's
`get_retry_after` answers 59 — `int()` truncation, not the ceiling 60 the
claim requires — and a caller that retries after the advertised 59 seconds
lands still inside the window and is denied again. -/
theorem C2_retry_after_rounds_down :
    RateLimitBucket.get_retry_after ⟨5, 60, 5, 0⟩ (1/2) = 59 ∧
    ⌈(60 : ℚ) - ((1/2 : ℚ) - 0)⌉ = 60 ∧
    (RateLimitBucket.consume ⟨5, 60, 5, 0⟩ 1 ((1/2 : ℚ) + 59)).1 = false ∧
    (DatabaseRateLimiter.check_rate_limit 2 60 "k" none "/api" "GET" (119/2)
        ⟨[⟨"k", none, "/api", 2, 0, 0⟩], []⟩).1.retry_after = some 0 := by
  refine ⟨?_, ?_, ?_, ?_⟩
  · norm_num [RateLimitBucket.get_retry_after, pyInt]
  · rw [Int.ceil_eq_iff]
    norm_num
  · have hc : ¬ ((⟨5, 60, 5, 0⟩ : RateLimitBucket).window_seconds
        ≤ ((1/2 : ℚ) + 59) - (⟨5, 60, 5, 0⟩ : RateLimitBucket).window_start) := by
      norm_num
    have h1 : (⟨5, 60, 5, 0⟩ : RateLimitBucket).reset_if_new_window
        ((1/2 : ℚ) + 59) = ⟨5, 60, 5, 0⟩ :=
      reset_if_new_window_of_no_reset _ _ hc
    simp only [RateLimitBucket.consume, h1]
    simp
  · have hw : ¬ (60 : ℚ) ≤ (119/2 : ℚ) - (0 : ℚ) := by norm_num
    have hf : ¬ (2 : ℕ) < 2 := by decide
    simp only [DatabaseRateLimiter.check_rate_limit, dbFirst, dbRowMatch,
      pyTruthy, List.filter, List.head?]
    norm_num [pyInt]

/-- C4: two concurrent `consume(1)` calls against one fresh bucket with
`max_requests = 1`. Under the interleaved schedule where both run the
guard before either increments, both are admitted (2 = max_requests + 1
admissions); under the serialized schedule exactly one is admitted. -/
theorem C4_race_admits_over_quota :
    countAllowed (runSchedule 1 ⟨0, [ConsumePhase.ready, ConsumePhase.ready]⟩
        [0, 1, 0, 1]) = 2 ∧
    countAllowed (runSchedule 1 ⟨0, [ConsumePhase.ready, ConsumePhase.ready]⟩
        [0, 0, 1, 1]) = 1 := by
  decide

/-- C5: on the database backend, a denied check appends no usage-log row:
the deny branch of `DatabaseRateLimiter.check_rate_limit` returns without
calling `_log_usage`, so the log table is left exactly as it was. -/
theorem C5_db_denied_appends_no_log (max_requests : ℕ) (window_seconds : ℚ)
    (api_key : String) (user_id : Option String) (ep m : String) (now : ℚ)
    (db : DBState) (r : DBRateLimitState)
    (hr : dbFirst db.states api_key user_id ep = some r)
    (hwin : ¬ window_seconds ≤ now - r.window_start)
    (hfull : ¬ r.current_requests < max_requests) :
    (DatabaseRateLimiter.check_rate_limit max_requests window_seconds api_key
        user_id ep m now db).1.allowed = false ∧
    (DatabaseRateLimiter.check_rate_limit max_requests window_seconds api_key
        user_id ep m now db).2.logs = db.logs := by
  simp [DatabaseRateLimiter.check_rate_limit, hr, hwin, hfull]

/-- C5 witness: a full counter row (2 of 2, window open) denies the next
check and the log table is unchanged by the call. -/
theorem C5_db_denied_appends_no_log_witness :
    dbFirst [⟨"k", none, "/api", 2, 0, 0⟩] "k" none "/api"
      = some ⟨"k", none, "/api", 2, 0, 0⟩ ∧
    (DatabaseRateLimiter.check_rate_limit 2 60 "k" none "/api" "GET" 0
        ⟨[⟨"k", none, "/api", 2, 0, 0⟩],
         [⟨"k", none, "/api", "GET", 0⟩]⟩).1.allowed = false ∧
    (DatabaseRateLimiter.check_rate_limit 2 60 "k" none "/api" "GET" 0
        ⟨[⟨"k", none, "/api", 2, 0, 0⟩],
         [⟨"k", none, "/api", "GET", 0⟩]⟩).2.logs
      = [⟨"k", none, "/api", "GET", 0⟩] := by
  have h := C5_db_denied_appends_no_log 2 60 "k" none "/api" "GET" 0
    ⟨[⟨"k", none, "/api", 2, 0, 0⟩], [⟨"k", none, "/api", "GET", 0⟩]⟩
    ⟨"k", none, "/api", 2, 0, 0⟩ (by decide) (by simp) (by decide)
  exact ⟨by decide, h.1, h.2⟩

/-! ## Claims C6, C7, C9: stats mutation and scope keys -/

/-- C6: gathering statistics mutates the counter store. For a bucket whose
window has elapsed, `get_rate_limit_stats` resets its count from 2 to 0
and moves its window start from 0 to the query instant 60 — a read that
changes counter state. -/
theorem C6_stats_read_mutates_counters :
    get_rate_limit_stats_store "k1" 60
        [("user:k1:anonymous:/api", ⟨5, 60, 2, 0⟩)]
      = [("user:k1:anonymous:/api", ⟨5, 60, 0, 60⟩)] ∧
    ([("user:k1:anonymous:/api", ⟨5, 60, 0, 60⟩)] : Store)
      ≠ [("user:k1:anonymous:/api", ⟨5, 60, 2, 0⟩)] := by
  constructor
  · simp +decide [get_rate_limit_stats_store,
      RateLimitBucket.reset_if_new_window, RateLimitBucket.get_remaining]
  · decide

/-- String concatenation of the user-class key shape is injective in the
middle (user) segment once credential and endpoint are fixed. -/
theorem user_key_middle_inj (k e m1 m2 : String)
    (h : "user:" ++ k ++ ":" ++ m1 ++ ":" ++ e
        = "user:" ++ k ++ ":" ++ m2 ++ ":" ++ e) : m1 = m2 := by
  have hd := congrArg String.data h
  simp only [String.data_append, List.append_assoc] at hd
  have h1 := List.append_cancel_left hd
  have h2 := List.append_cancel_left h1
  have h3 := List.append_cancel_left h2
  exact String.ext (List.append_cancel_right h3)

/-- C7 counterexample: the present sub-identity `"anonymous"` produces the
very same scope key as an absent sub-identity — the anonymous counter
collides with that per-user counter. -/
theorem C7_anonymous_collision :
    get_rate_limit_key "k" (some "anonymous") "/api" "user"
      = get_rate_limit_key "k" none "/api" "user" ∧
    (some "anonymous" : Option String) ≠ none := by
  constructor
  · rfl
  · decide

/-- C7 amended: under one credential and endpoint, two sub-identities map
to the same counter key exactly when Python's `user_id or 'anonymous'`
normalizes them to the same string — so two distinct sub-identities,
neither absent, empty, nor the literal `"anonymous"`, never share a
counter, and the anonymous counter collides only with those sentinel-like
values. -/
theorem C7_scope_key_collision_iff (k e : String) (u1 u2 : Option String) :
    get_rate_limit_key k u1 e "user" = get_rate_limit_key k u2 e "user"
      ↔ orAnonymous u1 = orAnonymous u2 := by
  constructor
  · intro h
    simp only [get_rate_limit_key, String.reduceEq, reduceIte] at h
    exact user_key_middle_inj k e (orAnonymous u1) (orAnonymous u2) h
  · intro h
    simp only [get_rate_limit_key, String.reduceEq, reduceIte, h]

/-- C9 counterexample: the source key builder does not fail on an empty
credential: it returns an ordinary scope key, while the spec-modelled
builder demands `InvalidScope` there. -/
theorem C9_empty_credential_yields_key :
    get_rate_limit_key "" (some "u") "/api" "user" = "user::u:/api" ∧
    buildScopeKeySpec "" (some "u") "/api"
      = Except.error ScopeError.invalidScope := by
  constructor
  · rfl
  · rfl

/-- C9 amended: scope key building is pure and total over all inputs,
the empty credential included: for every sub-identity and endpoint it
produces the user-class key with an empty credential segment instead of
failing. -/
theorem C9_total_even_on_empty_credential (u : Option String) (e : String) :
    get_rate_limit_key "" u e "user"
      = "user:" ++ "" ++ ":" ++ orAnonymous u ++ ":" ++ e := by
  simp only [get_rate_limit_key, String.reduceEq, reduceIte]

/-! ## Claim C10: client_ip independence -/

/-- Appending one of two entries that agree except on `client_ip` and then
applying the 1000-entry retention gives logs that agree once `client_ip`
is scrubbed. -/
theorem pushLog_map_scrub (l : List LogEntry) (e1 e2 : LogEntry)
    (h : ({ e1 with client_ip := none } : LogEntry)
        = { e2 with client_ip := none }) :
    ((if 1000 < (l ++ [e1]).length then (l ++ [e1]).tail else l ++ [e1]).map
        fun x => { x with client_ip := none })
      = ((if 1000 < (l ++ [e2]).length then (l ++ [e2]).tail
          else l ++ [e2]).map fun x => { x with client_ip := none }) := by
  simp only [List.length_append, List.length_singleton]
  by_cases hl : 1000 < l.length + 1
  · rw [if_pos hl, if_pos hl]
    cases l with
    | nil => simp at hl
    | cons a as => simp [h]
  · rw [if_neg hl, if_neg hl]
    simp [h]

/-- The retention step keeps the just-appended entry as the last log. -/
theorem pushLog_getLast (l : List LogEntry) (e : LogEntry) :
    (if 1000 < (l ++ [e]).length then (l ++ [e]).tail
     else l ++ [e]).getLast? = some e := by
  by_cases hl : 1000 < (l ++ [e]).length
  · rw [if_pos hl]
    cases l with
    | nil => simp at hl
    | cons a as => simp [List.getLast?_concat]
  · rw [if_neg hl]
    exact List.getLast?_concat ..

/-- C10: the admission decision is independent of `client_ip`. Two calls
that differ only in `client_ip`, run from the same state, return the same
result (allowed, remaining, retry_after, message), leave the bucket store
identical, and produce usage logs that agree except on the recorded
`client_ip` of the new entry — which is exactly the call's argument. -/
theorem C10_client_ip_independent (api_key : String) (cfg : RateLimitConfig)
    (uid : Option String) (ep : String) (ip1 ip2 : Option String) (now : ℚ)
    (st : LimiterState) :
    (check_rate_limit api_key cfg uid ep ip1 now st).1
      = (check_rate_limit api_key cfg uid ep ip2 now st).1 ∧
    (check_rate_limit api_key cfg uid ep ip1 now st).2.rate_limits_store
      = (check_rate_limit api_key cfg uid ep ip2 now st).2.rate_limits_store ∧
    ((check_rate_limit api_key cfg uid ep ip1 now st).2.usage_logs.map
        fun x => { x with client_ip := none })
      = ((check_rate_limit api_key cfg uid ep ip2 now st).2.usage_logs.map
        fun x => { x with client_ip := none }) ∧
    ((check_rate_limit api_key cfg uid ep ip1 now st).2.usage_logs.getLast?).map
        LogEntry.client_ip = some ip1 := by
  refine ⟨rfl, rfl, ?_, ?_⟩
  · simp only [check_rate_limit]
    exact pushLog_map_scrub st.usage_logs _ _ rfl
  · simp only [check_rate_limit]
    rw [pushLog_getLast]
    rfl
